import Mathlib

set_option maxRecDepth 16384

/-!
Verification of the device-orchestration core: the command-execution engine
(`CommandRunner`, command_runner.py) and the emulator lifecycle manager
(`EmulatorManager`, emulator_manager.py), shallowly embedded in Lean.
Subprocess interactions are abstracted as explicit outcome parameters;
wall-clock readings and timestamps are abstracted to `Nat`.
-/

namespace AdbCmd

/-! ## Python string primitives

Core Lean `String` functions such as `String.trim` are defined by
well-founded recursion over byte positions and do not reduce in the kernel,
so the Python string operations used by the code are modelled structurally
over `String.data` (the character list). -/

/-- Python substring containment `pat in s`. -/
def strIn (pat s : String) : Bool := decide (pat.data <:+: s.data)

/-- Python `s.strip()`: remove leading and trailing whitespace. -/
def pyStrip (s : String) : String :=
  ⟨((s.data.dropWhile Char.isWhitespace).reverse.dropWhile Char.isWhitespace).reverse⟩

/-- Python `s.lower()`. -/
def pyLower (s : String) : String := ⟨s.data.map Char.toLower⟩

/-- Python `s.split(sep)[0]` for a one-character separator: the prefix of
`s` before the first occurrence of `c` (or all of `s` if `c` is absent). -/
def beforeChar (c : Char) (s : String) : String :=
  ⟨s.data.takeWhile (fun d => !(d == c))⟩

/-- Python `c in s` for a single character `c`. -/
def hasChar (c : Char) (s : String) : Bool := s.data.any (fun d => d == c)

/-! ## CommandRunner: data model -/

/-- Result record of one command execution: the `CommandResult` dataclass of
command_runner.py (lines 18-30).  The float `execution_time` and the
`datetime` timestamp are abstracted to `Nat` clock readings. -/
structure CommandResult where
  command : String
  success : Bool
  stdout : String
  stderr : String
  return_code : Int
  execution_time : Nat
  timestamp : Nat
  device_serial : String
  api_level : Option Nat := none
  screenshot_path : Option String := none
deriving DecidableEq, Repr

/-- Engine state of `CommandRunner.__init__` (lines 36-40): configured
default timeout, retry attempt count, and the owned command history. -/
structure CommandRunner where
  timeout : Nat
  retry_attempts : Nat
  command_history : List CommandResult
deriving DecidableEq, Repr

/-- Abstract outcome of the subprocess spawned and awaited by
`CommandRunner._run_command`: the process either completes with a return
code and decoded output streams, exceeds the timeout
(`asyncio.TimeoutError`, re-raised as `subprocess.TimeoutExpired`), or some
other exception is raised. -/
inductive ProcOutcome where
  | completed (returncode : Int) (stdout stderr : String)
  | timedOut
  | raised (msg : String)
deriving DecidableEq, Repr

/-- Success of an abstract process outcome: only a completed process with
return code 0 counts. -/
def outcomeSuccess : ProcOutcome → Bool
  | .completed rc _ _ => rc == 0
  | .timedOut => false
  | .raised _ => false

/-! ## CommandRunner: operations -/

/-- Leading-token strip of `_format_command` (lines 78-79): remove a
leading `adb ` prefix, Python `command[4:]`. -/
def strip_adb (command : String) : String :=
  if "adb ".data.isPrefixOf command.data then (⟨command.data.drop 4⟩ : String)
  else command

/-- Command normalization, `CommandRunner._format_command` (lines 75-86):
strip a leading `adb ` token, then return `adb <command>` if the substring
`-s` already occurs anywhere in the command, else insert the target-device
flag: `adb -s <serial> <command>`. -/
def format_command (command serial : String) : String :=
  let command := strip_adb command
  if strIn "-s" command then "adb " ++ command
  else "adb -s " ++ serial ++ " " ++ command

/-- One attempt, `CommandRunner._run_command` (lines 88-158), over an
abstract process outcome.  A completed process yields a result with
`success = (returncode == 0)`; a timeout yields the synthetic result with
`stderr = "Command timeout after N seconds"` and `return_code = -1` after
`process.kill()`; any other exception yields the synthetic result carrying
the exception text.  The returned boolean records whether `process.kill()`
was issued (true exactly on the timeout path, lines 116-118). -/
def run_command (command serial : String) (timeout : Nat)
    (outcome : ProcOutcome) (execution_time timestamp : Nat) :
    CommandResult × Bool :=
  match outcome with
  | .completed rc out err =>
      ({ command := command, success := rc == 0, stdout := out, stderr := err,
         return_code := rc, execution_time := execution_time,
         timestamp := timestamp, device_serial := serial }, false)
  | .timedOut =>
      ({ command := command, success := false, stdout := "",
         stderr := "Command timeout after " ++ toString timeout ++ " seconds",
         return_code := -1, execution_time := execution_time,
         timestamp := timestamp, device_serial := serial }, true)
  | .raised msg =>
      ({ command := command, success := false, stdout := "", stderr := msg,
         return_code := -1, execution_time := execution_time,
         timestamp := timestamp, device_serial := serial }, false)

/-- Retry loop of `CommandRunner.execute_command` (lines 56-63):
`attempt i` is the result of the i-th call to `_run_command`; `remaining`
is the number of loop iterations still allowed.  The loop breaks on the
first success or once the last allowed attempt has run, leaving the final
attempt's result; the second component counts the attempts performed.
`none` models `retry_attempts = 0`, where the Python loop body never runs
and the subsequent read of `result` is unbound. -/
def execLoop (attempt : Nat → CommandResult) (i : Nat) :
    Nat → Option (CommandResult × Nat)
  | 0 => none
  | 1 => some (attempt i, i + 1)
  | remaining + 2 =>
      let r := attempt i
      if r.success then some (r, i + 1) else execLoop attempt (i + 1) (remaining + 1)

/-- Timeout resolution of `execute_command` line 48, Python
`timeout = timeout or self.timeout`: an absent or zero (falsy) caller
timeout falls back to the engine default. -/
def resolve_timeout (self : CommandRunner) : Option Nat → Nat
  | none => self.timeout
  | some t => if t = 0 then self.timeout else t

/-- Engine entry point `CommandRunner.execute_command` (lines 42-73) on the
`capture_screenshot = False` path: resolve the timeout, normalize the
command, run the retry loop, and append the loop's final result — one
entry per call — to the engine-owned history.  `outcomes i` is the
abstract subprocess outcome of the i-th attempt and `clock i` its
(execution_time, timestamp) reading.  Returns the final result, the
updated engine state, and the number of attempts performed. -/
def execute_command (self : CommandRunner) (command serial : String)
    (timeoutOpt : Option Nat) (outcomes : Nat → ProcOutcome)
    (clock : Nat → Nat × Nat) :
    Option (CommandResult × CommandRunner × Nat) :=
  let timeout := resolve_timeout self timeoutOpt
  let formatted := format_command command serial
  let attempt := fun i =>
    (run_command formatted serial timeout (outcomes i) (clock i).1 (clock i).2).1
  match execLoop attempt 0 self.retry_attempts with
  | some (result, n) =>
      some (result,
        { self with command_history := self.command_history ++ [result] }, n)
  | none => none

/-- Host path built by `capture_screenshot` (line 247). -/
def host_screenshot_path (serial timestampStr : String) : String :=
  "/tmp/screenshot_" ++ serial ++ "_" ++ timestampStr ++ ".png"

/-- On-device path built by `capture_screenshot` (line 251). -/
def device_screenshot_path (timestampStr : String) : String :=
  "/sdcard/screenshot_" ++ timestampStr ++ ".png"

/-- On-device capture command of `capture_screenshot` (line 253). -/
def screencap_cmd (timestampStr : String) : String :=
  "shell screencap -p " ++ device_screenshot_path timestampStr

/-- Pull-to-host command of `capture_screenshot` (line 260). -/
def pull_cmd (serial timestampStr : String) : String :=
  "pull " ++ device_screenshot_path timestampStr ++ " " ++
    host_screenshot_path serial timestampStr

/-- On-device removal command of `capture_screenshot` (line 267). -/
def rm_cmd (timestampStr : String) : String :=
  "shell rm " ++ device_screenshot_path timestampStr

/-- Screenshot chain `CommandRunner.capture_screenshot` (lines 244-276).
The engine's three inner `execute_command` calls are abstracted by
`results`, mapping each issued command string to the `success` field of
its returned `CommandResult`.  Returns the host path produced (if any)
together with the list of command strings actually issued, in order: the
pull runs only if the on-device capture succeeded, the on-device removal
runs only if the pull succeeded, and the removal's own result is not
consulted before returning the path. -/
def capture_screenshot (serial timestampStr : String)
    (results : String → Bool) : Option String × List String :=
  let c1 := screencap_cmd timestampStr
  if results c1 then
    let c2 := pull_cmd serial timestampStr
    if results c2 then
      let c3 := rm_cmd timestampStr
      (some (host_screenshot_path serial timestampStr), [c1, c2, c3])
    else (none, [c1, c2])
  else (none, [c1])

/-! ## EmulatorManager: provisioning -/

/-- Supported API levels, `EmulatorManager.SUPPORTED_API_LEVELS`
(emulator_manager.py line 35). -/
def SUPPORTED_API_LEVELS : List Nat := [31, 33, 34, 35, 36]

/-- Local SDK install state visible to the external package-manager tool:
the set of API levels whose system image is installed. -/
structure SdkState where
  installed : List Nat
deriving DecidableEq, Repr

/-- Abstract behaviour of the external package-manager tool invoked by
`download_system_image` (the `sdkmanager <system-image>` run, lines
193-198): invoking it for an already-installed image exits nonzero with an
"already installed" warning on stderr and transfers nothing; otherwise it
attempts the download, which succeeds (installing the image) iff
`fetchOk`.  Returns (returncode, stderr), the new install state, and the
number of image downloads actually performed. -/
def sdkmanagerRun (api_level : Nat) (st : SdkState) (fetchOk : Bool) :
    (Int × String) × SdkState × Nat :=
  if api_level ∈ st.installed then
    ((1, "Warning: package is already installed"), st, 0)
  else if fetchOk then ((0, ""), ⟨api_level :: st.installed⟩, 1)
  else ((1, "download failed"), st, 0)

/-- Image provisioning, `EmulatorManager.download_system_image` (lines
165-215): reject unsupported API levels; otherwise run the package-manager
download and report success if it exits 0 or its stderr, lowercased,
contains "already installed" (line 204).  Tool timeouts and other
exceptions, which also yield `false`, are subsumed by the failing-download
outcome.  Returns the boolean result, the resulting install state, and the
number of downloads performed during the call. -/
def download_system_image (api_level : Nat) (st : SdkState) (fetchOk : Bool) :
    Bool × SdkState × Nat :=
  if api_level ∈ SUPPORTED_API_LEVELS then
    let res := sdkmanagerRun api_level st fetchOk
    let rc := res.1.1
    let stderr := res.1.2
    if rc == 0 then (true, res.2.1, res.2.2)
    else if strIn "already installed" (pyLower stderr) then (true, res.2.1, res.2.2)
    else (false, res.2.1, res.2.2)
  else (false, st, 0)

/-- Abstract outcome of the `avdmanager create avd` subprocess run inside
`create_avd` (lines 244-251). -/
inductive AvdCreateOutcome where
  | completed (rc : Int) (stderr : String)
  | raised (msg : String)
deriving DecidableEq, Repr

/-- Device-definition creation, `EmulatorManager.create_avd` (lines
217-265): reject unsupported API levels before anything else; otherwise
ensure the system image first via `download_system_image` and fail fast on
its failure; then run `avdmanager create avd` (success iff return code 0;
an exception fails).  The AVD configuration rewrite performed on success
(line 257) does not affect the returned boolean.  The second component
records whether image provisioning (`download_system_image`) was invoked
during the call. -/
def create_avd (api_level : Nat) (st : SdkState) (fetchOk : Bool)
    (createOutcome : AvdCreateOutcome) : Bool × Bool × SdkState :=
  if api_level ∈ SUPPORTED_API_LEVELS then
    let dl := download_system_image api_level st fetchOk
    if dl.1 then
      match createOutcome with
      | .completed rc _ => if rc == 0 then (true, true, dl.2.1) else (false, true, dl.2.1)
      | .raised _ => (false, true, dl.2.1)
    else (false, true, dl.2.1)
  else (false, false, st)

/-! ## EmulatorManager: AVD config rewrite -/

/-- Key of a `key=value` config line, Python `line.split('=')[0].strip()`
(line 300). -/
def lineKey (line : String) : String := pyStrip (beforeChar '=' line)

/-- Fixed override set built by `_configure_avd` (lines 282-292), in the
dict's insertion order. -/
def config_updates (memory : Nat) (gpu_mode : String) (headless : Bool) :
    List (String × String) :=
  [("hw.ramSize", toString memory),
   ("hw.gpu.enabled", "yes"),
   ("hw.gpu.mode", gpu_mode),
   ("hw.keyboard", "yes"),
   ("hw.accelerometer", "yes"),
   ("hw.battery", "yes"),
   ("hw.camera.back", "virtualscene"),
   ("hw.camera.front", "emulated"),
   ("showDeviceFrame", if headless then "no" else "yes")]

/-- Per-line pass of `_configure_avd` (lines 294-307): threading the
accumulated (updated_lines, updated_keys) pair, a line containing `=`
whose key matches an override is replaced by `key=value\n` and its key
recorded; every other line is kept verbatim. -/
def configStep (updates : List (String × String))
    (acc : List String × List String) (line : String) :
    List String × List String :=
  if hasChar '=' line then
    let key := lineKey line
    match updates.find? (fun kv => kv.1 == key) with
    | some kv => (acc.1 ++ [key ++ "=" ++ kv.2 ++ "\n"], acc.2 ++ [key])
    | none => (acc.1 ++ [line], acc.2)
  else (acc.1 ++ [line], acc.2)

/-- Config rewrite of `_configure_avd` (lines 294-316): apply the per-line
pass over all lines, then append `key=value\n` for every override whose
key was never matched (lines 309-312), in override order. -/
def configure_lines (updates : List (String × String)) (lines : List String) :
    List String :=
  let res := lines.foldl (configStep updates) ([], [])
  res.1 ++ (updates.filter (fun kv => !res.2.contains kv.1)).map
    (fun kv => kv.1 ++ "=" ++ kv.2 ++ "\n")

/-- Effect of the per-line pass on a single line, in isolation: a line
containing `=` whose key matches an override is replaced by `key=value\n`;
every other line is left verbatim. -/
def rewrite_line (updates : List (String × String)) (line : String) : String :=
  if hasChar '=' line then
    match updates.find? (fun kv => kv.1 == lineKey line) with
    | some kv => lineKey line ++ "=" ++ kv.2 ++ "\n"
    | none => line
  else line

/-- Whether a config line is a `key=value` line whose key is `key`. -/
def line_matches_key (line key : String) : Bool :=
  hasChar '=' line && (lineKey line == key)

/-! ## EmulatorManager: boot wait -/

/-- Observations of one polling attempt of `_wait_for_boot` (lines
553-572): return code and stdout of the `getprop sys.boot_completed`
query, and return code of the `pm list packages` query. -/
structure BootPoll where
  getprop_rc : Int
  getprop_out : String
  pm_rc : Int
deriving DecidableEq, Repr

/-- One polling attempt of `_wait_for_boot`: the package-listing query is
consulted only when the boot-completed property read succeeded and its
stripped stdout equals "1" (lines 562-570). -/
def boot_attempt_ok (p : BootPoll) : Bool :=
  if p.getprop_rc == 0 && pyStrip p.getprop_out == "1" then p.pm_rc == 0
  else false

/-- Polling loop of `_wait_for_boot` (lines 550-578): while
`waited < timeout`, check attempt `i`; on failure sleep the fixed 3s
interval, advance `waited` by 3, and retry.  `env i` is the observation of
the i-th attempt. -/
def wait_for_boot_loop (env : Nat → BootPoll) (timeout waited i : Nat) : Bool :=
  if waited < timeout then
    if boot_attempt_ok (env i) then true
    else wait_for_boot_loop env timeout (waited + 3) (i + 1)
  else false
termination_by timeout - waited
decreasing_by omega

/-- Boot wait `EmulatorManager._wait_for_boot` (lines 546-578) with its
default 120s deadline. -/
def wait_for_boot (env : Nat → BootPoll) (timeout : Nat) : Bool :=
  wait_for_boot_loop env timeout 0 0

/-! ## EmulatorManager: lifecycle -/

/-- Record of one tracked emulator, the `EmulatorInfo` dataclass
(emulator_manager.py lines 20-28); the status field holds the literal
status strings used by the code.  `start_time` is an abstract clock
reading. -/
structure EmulatorInfo where
  name : String
  serial : String
  api_level : Nat
  status : String
  start_time : Nat
  process_id : Option Nat
deriving DecidableEq, Repr

/-- Python dict assignment `self.emulators[serial] = emulator` on an
association list. -/
def setEmu (serial : String) (e : EmulatorInfo)
    (emus : List (String × EmulatorInfo)) : List (String × EmulatorInfo) :=
  (serial, e) :: emus.filter (fun p => !(p.1 == serial))

/-- Emulator stop, `EmulatorManager.stop_emulator` (lines 580-610): issue
the graceful `adb emu kill` (result not consulted), and if the serial is
tracked, set its status to "stopped", kill its process, and remove the
record; returns True on this path.  The last component lists the status
values assigned during the call, in order. -/
def stop_emulator (serial : String) (emus : List (String × EmulatorInfo)) :
    Bool × List (String × EmulatorInfo) × List String :=
  match emus.find? (fun p => p.1 == serial) with
  | some _ => (true, emus.filter (fun p => !(p.1 == serial)), ["stopped"])
  | none => (true, emus, [])

/-- Emulator start, `EmulatorManager.start_emulator` (lines 419-500), over
an abstract environment: `avd_found` is whether the named AVD is listed,
`discovered` the serial found by `_wait_for_new_device` (none on discovery
timeout, after which the process is terminated and no record exists), and
`bootOk` the `_wait_for_boot` verdict.  On discovery the record is created
with status "starting" and tracked; boot success sets it to "running";
boot failure logs and calls `stop_emulator`, which sets "stopped" and
discards the record.  Returns the record handed to the caller (if any),
the updated tracking table, and the status values assigned to this
attempt's record, in order. -/
def start_emulator (name : String) (api_level : Nat) (avd_found : Bool)
    (discovered : Option String) (bootOk : Bool) (now pid : Nat)
    (emus : List (String × EmulatorInfo)) :
    Option EmulatorInfo × List (String × EmulatorInfo) × List String :=
  if avd_found then
    match discovered with
    | some serial =>
        let emu0 : EmulatorInfo :=
          { name := name, serial := serial, api_level := api_level,
            status := "starting", start_time := now, process_id := some pid }
        let emus1 := setEmu serial emu0 emus
        if bootOk then
          let emu1 := { emu0 with status := "running" }
          (some emu1, setEmu serial emu1 emus1, ["starting", "running"])
        else
          let s := stop_emulator serial emus1
          (none, s.2.1, "starting" :: s.2.2)
    | none => (none, emus, [])
  else (none, emus, [])

/-- Status values assigned, in order, over the whole lifetime of the record
of one started emulator: the assignments made by `start_emulator`,
followed — when the start succeeded and a stop is later requested — by
those of `stop_emulator`. -/
def lifecycle_trace (name : String) (api_level : Nat) (serial : String)
    (bootOk stoppedLater : Bool) (now pid : Nat) : List String :=
  let s := start_emulator name api_level true (some serial) bootOk now pid []
  if stoppedLater then s.2.2 ++ (stop_emulator serial s.2.1).2.2 else s.2.2

/-- Adjacent status transitions of a status-assignment trace. -/
def statusSteps (l : List String) : List (String × String) := l.zip l.tail

/-- Transitions allowed by the claimed status progression
starting→running→stopping→stopped, plus the claimed failure jump
starting→stopped. -/
def claimed_step (a b : String) : Bool :=
  (a == "starting" && b == "running") || (a == "running" && b == "stopping") ||
  (a == "stopping" && b == "stopped") || (a == "starting" && b == "stopped")

/-- Transitions the code actually performs: starting→running on boot
success, starting→stopped on boot failure, running→stopped on stop. -/
def code_step (a b : String) : Bool :=
  (a == "starting" && b == "running") || (a == "starting" && b == "stopped") ||
  (a == "running" && b == "stopped")

/-! ## Helper lemmas -/

/-- Python's substring test agrees with the mathematical decomposition:
`pat in s` holds iff `s` splits as `a ++ pat ++ b`. -/
theorem strIn_iff (pat s : String) :
    strIn pat s = true ↔ ∃ a b : String, s = a ++ pat ++ b := by
  unfold strIn
  rw [decide_eq_true_iff]
  constructor
  · rintro ⟨l, r, h⟩
    refine ⟨⟨l⟩, ⟨r⟩, String.ext ?_⟩
    simpa [String.data_append] using h.symm
  · rintro ⟨a, b, rfl⟩
    exact ⟨a.data, b.data, by simp [String.data_append]⟩

/-- Success of one attempt is exactly success of its abstract process
outcome. -/
theorem run_command_success (command serial : String) (timeout : Nat)
    (o : ProcOutcome) (e ts : Nat) :
    (run_command command serial timeout o e ts).1.success = outcomeSuccess o := by
  cases o <;> rfl

/-- Unfolding of the retry loop for the default two allowed attempts. -/
theorem execLoop_two (attempt : Nat → CommandResult) (i : Nat) :
    execLoop attempt i 2 =
      if (attempt i).success then some (attempt i, i + 1)
      else some (attempt (i + 1), i + 2) := by
  rfl

/-- When every attempt fails, the retry loop runs all allowed attempts and
leaves the last attempt's result. -/
theorem execLoop_all_fail (attempt : Nat → CommandResult)
    (hf : ∀ i, (attempt i).success = false) :
    ∀ n i, 1 ≤ n → execLoop attempt i n = some (attempt (i + n - 1), i + n) := by
  intro n
  induction n with
  | zero => intro i h; omega
  | succ m ih =>
      intro i _
      match m, ih with
      | 0, _ =>
          rw [show i + 1 - 1 = i by omega]
          rfl
      | k + 1, ih =>
          show execLoop attempt i (k + 2) = _
          rw [execLoop, hf i, if_neg Bool.false_ne_true]
          rw [ih (i + 1) (by omega)]
          rw [show i + 1 + (k + 1) - 1 = i + (k + 1 + 1) - 1 by omega,
              show i + 1 + (k + 1) = i + (k + 1 + 1) by omega]

/-! ## C10: substring test for the target-device flag -/

/-- C10: command normalization decides whether a target-device flag is
already supplied by a plain substring test: whenever the (adb-stripped)
command contains the substring `-s` anywhere — including inside an
unrelated argument — no `-s <serial>` flag is inserted and the result is
`adb ` followed by the stripped command; when `-s` does not occur as a
substring, the flag is inserted. -/
theorem format_command_substring_test (command serial : String) :
    ((∃ a b : String, strip_adb command = a ++ "-s" ++ b) →
      format_command command serial = "adb " ++ strip_adb command) ∧
    ((¬ ∃ a b : String, strip_adb command = a ++ "-s" ++ b) →
      format_command command serial =
        "adb -s " ++ serial ++ " " ++ strip_adb command) := by
  constructor
  · intro hex
    have h : strIn "-s" (strip_adb command) = true := (strIn_iff _ _).mpr hex
    simp [format_command, h]
  · intro hnex
    have h : strIn "-s" (strip_adb command) ≠ true :=
      fun h => hnex ((strIn_iff _ _).mp h)
    simp [format_command, h]

/-- Witness for C10: `shell ls -skip` contains `-s` inside an unrelated
argument, so no flag is inserted; `adb shell ls` is stripped and gets the
flag. -/
theorem format_command_substring_test_witness :
    format_command "shell ls -skip" "emulator-5554" = "adb shell ls -skip" ∧
    format_command "adb shell ls" "emulator-5554" =
      "adb -s emulator-5554 shell ls" := by
  constructor
  · have h := (format_command_substring_test "shell ls -skip" "emulator-5554").1
      ⟨"shell ls ", "kip", by decide⟩
    exact h.trans (by decide)
  · have h := (format_command_substring_test "adb shell ls" "emulator-5554").2
      (fun hex => absurd ((strIn_iff "-s" (strip_adb "adb shell ls")).mpr hex)
        (by decide))
    exact h.trans (by decide)

/-! ## C3: success/returnCode invariant -/

/-- C3: every result produced by the engine's single-attempt runner
satisfies success = (returnCode == 0), and the synthetic results produced
on timeout or internal error have success=false and returnCode=-1. -/
theorem run_command_result_invariant (command serial : String) (timeout : Nat)
    (o : ProcOutcome) (e ts : Nat) :
    ((run_command command serial timeout o e ts).1.success =
      ((run_command command serial timeout o e ts).1.return_code == 0)) ∧
    ((o = ProcOutcome.timedOut ∨ (∃ m, o = ProcOutcome.raised m)) →
      (run_command command serial timeout o e ts).1.success = false ∧
      (run_command command serial timeout o e ts).1.return_code = -1) := by
  cases o <;> simp [run_command]

/-- Witness for C3 at the synthetic timeout result. -/
theorem run_command_result_invariant_witness :
    (run_command "adb -s e1 shell ls" "e1" 30 ProcOutcome.timedOut 1 2).1.success
        = false ∧
    (run_command "adb -s e1 shell ls" "e1" 30 ProcOutcome.timedOut 1 2).1.return_code
        = -1 :=
  (run_command_result_invariant "adb -s e1 shell ls" "e1" 30
    ProcOutcome.timedOut 1 2).2 (Or.inl rfl)

/-! ## C7: screenshot chain -/

/-- Refutation of C7 as stated: with the on-device capture and the pull
succeeding but the on-device removal failing, all three steps are issued,
the third fails, and a path is nonetheless returned — the removal's
failure does not abort the chain. -/
theorem capture_screenshot_counterexample :
    capture_screenshot "emulator-5554" "20250101_120000"
        (fun c => !(strIn "shell rm" c)) =
      (some "/tmp/screenshot_emulator-5554_20250101_120000.png",
       ["shell screencap -p /sdcard/screenshot_20250101_120000.png",
        "pull /sdcard/screenshot_20250101_120000.png /tmp/screenshot_emulator-5554_20250101_120000.png",
        "shell rm /sdcard/screenshot_20250101_120000.png"]) ∧
    (fun c => !(strIn "shell rm" c))
        "shell rm /sdcard/screenshot_20250101_120000.png" = false := by
  constructor
  · decide
  · decide

/-- C7 (amended): captureScreenshot performs the dependent chain
capture-on-device, pull-to-host, remove-on-device; failure of the capture
or of the pull aborts the chain and yields no path, while the removal
step's own failure is ignored: whenever capture and pull succeed the host
path is returned.  The operation is a total function (never raises). -/
theorem capture_screenshot_chain (serial ts : String) (results : String → Bool) :
    (results (screencap_cmd ts) = false →
      capture_screenshot serial ts results = (none, [screencap_cmd ts])) ∧
    (results (screencap_cmd ts) = true → results (pull_cmd serial ts) = false →
      capture_screenshot serial ts results =
        (none, [screencap_cmd ts, pull_cmd serial ts])) ∧
    (results (screencap_cmd ts) = true → results (pull_cmd serial ts) = true →
      capture_screenshot serial ts results =
        (some (host_screenshot_path serial ts),
         [screencap_cmd ts, pull_cmd serial ts, rm_cmd ts])) := by
  refine ⟨fun h1 => ?_, fun h1 h2 => ?_, fun h1 h2 => ?_⟩
  · simp [capture_screenshot, h1]
  · simp [capture_screenshot, h1, h2]
  · simp [capture_screenshot, h1, h2]

/-- Witness for C7 (amended): a failing pull aborts with no path; a full
success returns the path. -/
theorem capture_screenshot_chain_witness :
    capture_screenshot "e1" "t0" (fun c => !(strIn "pull" c)) =
      (none, ["shell screencap -p /sdcard/screenshot_t0.png",
              "pull /sdcard/screenshot_t0.png /tmp/screenshot_e1_t0.png"]) ∧
    capture_screenshot "e1" "t0" (fun _ => true) =
      (some "/tmp/screenshot_e1_t0.png",
       ["shell screencap -p /sdcard/screenshot_t0.png",
        "pull /sdcard/screenshot_t0.png /tmp/screenshot_e1_t0.png",
        "shell rm /sdcard/screenshot_t0.png"]) := by
  constructor
  · have h := (capture_screenshot_chain "e1" "t0" (fun c => !(strIn "pull" c))).2.1
      (by decide) (by decide)
    exact h.trans (by decide)
  · have h := (capture_screenshot_chain "e1" "t0" (fun _ => true)).2.2 rfl rfl
    exact h.trans (by decide)

/-! ## C1: retry loop and history -/

/-- Refutation of C1 as stated: with `retryAttempts = 2` and an
always-failing command, two attempts are performed but the engine history
receives exactly one entry (the final result, success=false), not two. -/
theorem execute_history_counterexample :
    ((execute_command ⟨30, 2, []⟩ "shell ls" "emulator-5554" none
        (fun _ => ProcOutcome.completed 1 "" "") (fun _ => (0, 0))).map
      (fun r => (r.2.1.command_history.length, r.1.success, r.2.2))) =
      some (1, false, 2) ∧ (1 : Nat) ≠ 2 := by
  constructor
  · decide
  · decide

/-- C1 (amended): each call to execute with retryAttempts=2 appends exactly
one entry — the final attempt's result — to the engine-owned history, in
call order.  An always-failing command performs 2 attempts and yields that
single entry with success=false; a command failing once then succeeding
performs 2 attempts with no further attempt after the success and yields
success=true. -/
theorem execute_appends_final_result (self : CommandRunner)
    (command serial : String) (timeoutOpt : Option Nat)
    (clock : Nat → Nat × Nat) (failAll failThenOk : Nat → ProcOutcome)
    (hretry : self.retry_attempts = 2)
    (hf : ∀ i, outcomeSuccess (failAll i) = false)
    (h0 : outcomeSuccess (failThenOk 0) = false)
    (h1 : outcomeSuccess (failThenOk 1) = true) :
    (∃ r, execute_command self command serial timeoutOpt failAll clock =
        some (r, { self with command_history := self.command_history ++ [r] }, 2) ∧
        r.success = false) ∧
    (∃ r, execute_command self command serial timeoutOpt failThenOk clock =
        some (r, { self with command_history := self.command_history ++ [r] }, 2) ∧
        r.success = true) := by
  constructor
  · refine ⟨(run_command (format_command command serial) serial
      (resolve_timeout self timeoutOpt) (failAll 1) (clock 1).1 (clock 1).2).1,
      ?_, ?_⟩
    · simp only [execute_command, hretry, execLoop_two, run_command_success,
        hf, Bool.false_eq_true, if_false]
    · rw [run_command_success, hf 1]
  · refine ⟨(run_command (format_command command serial) serial
      (resolve_timeout self timeoutOpt) (failThenOk 1) (clock 1).1 (clock 1).2).1,
      ?_, ?_⟩
    · simp only [execute_command, hretry, execLoop_two, run_command_success,
        h0, Bool.false_eq_true, if_false]
    · rw [run_command_success, h1]

/-- Witness for C1 (amended) at concrete always-failing and
fail-then-succeed outcome sequences. -/
theorem execute_appends_final_result_witness :
    (∃ r, execute_command ⟨30, 2, []⟩ "shell ls" "emulator-5554" none
        (fun _ => ProcOutcome.completed 1 "" "") (fun _ => (0, 0)) =
        some (r, { timeout := 30, retry_attempts := 2, command_history := [] ++ [r] }, 2) ∧
        r.success = false) ∧
    (∃ r, execute_command ⟨30, 2, []⟩ "shell ls" "emulator-5554" none
        (fun i => if i = 0 then ProcOutcome.completed 1 "" ""
                  else ProcOutcome.completed 0 "ok" "") (fun _ => (0, 0)) =
        some (r, { timeout := 30, retry_attempts := 2, command_history := [] ++ [r] }, 2) ∧
        r.success = true) :=
  execute_appends_final_result ⟨30, 2, []⟩ "shell ls" "emulator-5554" none
    (fun _ => (0, 0)) (fun _ => ProcOutcome.completed 1 "" "")
    (fun i => if i = 0 then ProcOutcome.completed 1 "" ""
              else ProcOutcome.completed 0 "ok" "")
    rfl (fun _ => rfl) rfl rfl

/-! ## C2: timeout produces the synthetic failure result -/

/-- C2: whenever every attempt of an execute call exceeds its timeout, the
call returns a synthetic failure result with success=false, returnCode=-1
and stderr "Command timeout after N seconds" for the timeout N in use, the
single appended history entry is that result, and every attempted process
was killed before its synthetic result was produced. -/
theorem execute_timeout_synthetic (self : CommandRunner)
    (command serial : String) (timeoutOpt : Option Nat)
    (clock : Nat → Nat × Nat) (outcomes : Nat → ProcOutcome)
    (hretry : 1 ≤ self.retry_attempts)
    (ht : ∀ i, outcomes i = ProcOutcome.timedOut) :
    (∃ r n, execute_command self command serial timeoutOpt outcomes clock =
        some (r, { self with command_history := self.command_history ++ [r] }, n) ∧
        r.success = false ∧ r.return_code = -1 ∧
        r.stderr = "Command timeout after " ++
          toString (resolve_timeout self timeoutOpt) ++ " seconds") ∧
    (∀ i, (run_command (format_command command serial) serial
        (resolve_timeout self timeoutOpt) (outcomes i)
        (clock i).1 (clock i).2).2 = true) := by
  have hfail : ∀ i, ((fun i => (run_command (format_command command serial)
      serial (resolve_timeout self timeoutOpt) (outcomes i)
      (clock i).1 (clock i).2).1) i).success = false := by
    intro i
    simp only [run_command_success, ht i]
    rfl
  constructor
  · refine ⟨(run_command (format_command command serial) serial
      (resolve_timeout self timeoutOpt) (outcomes (self.retry_attempts - 1))
      (clock (self.retry_attempts - 1)).1
      (clock (self.retry_attempts - 1)).2).1, self.retry_attempts, ?_, ?_, ?_, ?_⟩
    · simp only [execute_command]
      rw [execLoop_all_fail _ hfail self.retry_attempts 0 hretry, Nat.zero_add]
    · simp only [ht]
      rfl
    · simp only [ht]
      rfl
    · simp only [ht]
      rfl
  · intro i
    rw [ht i]
    rfl

/-- Witness for C2 at a concrete always-timing-out outcome sequence. -/
theorem execute_timeout_synthetic_witness :
    (∃ r n, execute_command ⟨30, 2, []⟩ "shell ls" "emulator-5554" none
        (fun _ => ProcOutcome.timedOut) (fun _ => (0, 0)) =
        some (r, { timeout := 30, retry_attempts := 2, command_history := [] ++ [r] }, n) ∧
        r.success = false ∧ r.return_code = -1 ∧
        r.stderr = "Command timeout after " ++ toString
          (resolve_timeout ⟨30, 2, []⟩ none) ++ " seconds") ∧
    (∀ _i : Nat, (run_command (format_command "shell ls" "emulator-5554") "emulator-5554"
        (resolve_timeout ⟨30, 2, []⟩ none) ProcOutcome.timedOut 0 0).2 = true) :=
  execute_timeout_synthetic ⟨30, 2, []⟩ "shell ls" "emulator-5554" none
    (fun _ => (0, 0)) (fun _ => ProcOutcome.timedOut) (by decide) (fun _ => rfl)

/-! ## C4: platform-version gate of AVD creation -/

/-- C4: for a platform version outside the supported set {31, 33, 34, 35,
36}, create returns false without invoking image provisioning; for a
supported version it invokes ensureImage (download_system_image) first and
returns false if that fails. -/
theorem create_avd_gate (api_level : Nat) (st : SdkState) (fetchOk : Bool)
    (co : AvdCreateOutcome) :
    (api_level ∉ SUPPORTED_API_LEVELS →
      create_avd api_level st fetchOk co = (false, false, st)) ∧
    (api_level ∈ SUPPORTED_API_LEVELS →
      (create_avd api_level st fetchOk co).2.1 = true ∧
      ((download_system_image api_level st fetchOk).1 = false →
        (create_avd api_level st fetchOk co).1 = false)) := by
  constructor
  · intro h
    simp [create_avd, h]
  · intro h
    constructor
    · simp only [create_avd, if_pos h]
      cases co with
      | completed rc stderr =>
          by_cases hdl : (download_system_image api_level st fetchOk).1 = true
          · simp only [hdl, if_true]
            by_cases hrc : (rc == 0) = true <;> simp [hrc]
          · simp [hdl]
      | raised msg =>
          by_cases hdl : (download_system_image api_level st fetchOk).1 = true <;>
            simp [hdl]
    · intro hdl
      simp [create_avd, if_pos h, hdl]

/-- Witness for C4: API level 32 is rejected with provisioning never
invoked; API level 34 with a failing image download fails fast. -/
theorem create_avd_gate_witness :
    create_avd 32 ⟨[]⟩ true (AvdCreateOutcome.completed 0 "") = (false, false, ⟨[]⟩) ∧
    ((create_avd 34 ⟨[]⟩ false (AvdCreateOutcome.completed 0 "")).2.1 = true ∧
      (create_avd 34 ⟨[]⟩ false (AvdCreateOutcome.completed 0 "")).1 = false) :=
  ⟨(create_avd_gate 32 ⟨[]⟩ true (AvdCreateOutcome.completed 0 "")).1 (by decide),
   ((create_avd_gate 34 ⟨[]⟩ false (AvdCreateOutcome.completed 0 "")).2 (by decide)).1,
   ((create_avd_gate 34 ⟨[]⟩ false (AvdCreateOutcome.completed 0 "")).2 (by decide)).2
     (by decide)⟩

/-! ## C8: image provisioning is idempotent -/

/-- C8: whenever the package manager reports the image for a supported
version already installed, ensureImage returns true with no download
performed and the install state unchanged; consequently, after any call
that returned true, a second call for the same version returns true and
performs no externally observable download work. -/
theorem download_image_idempotent (api_level : Nat) (st : SdkState)
    (f1 f2 : Bool) (hapi : api_level ∈ SUPPORTED_API_LEVELS) :
    (api_level ∈ st.installed →
      download_system_image api_level st f1 = (true, st, 0)) ∧
    (∀ st1 n1, download_system_image api_level st f1 = (true, st1, n1) →
      download_system_image api_level st1 f2 = (true, st1, 0)) := by
  have already : ∀ (s : SdkState) (f : Bool), api_level ∈ s.installed →
      download_system_image api_level s f = (true, s, 0) := by
    intro s f hin
    unfold download_system_image sdkmanagerRun
    rw [if_pos hapi, if_pos hin]
    simp only
    rw [if_neg (by decide), if_pos (by decide)]
  refine ⟨already st f1, ?_⟩
  intro st1 n1 h1
  by_cases hin : api_level ∈ st.installed
  · have h0 := already st f1 hin
    rw [h0] at h1
    have hst : st1 = st := by
      have := h1.symm
      exact congrArg (fun p => p.2.1) this
    rw [hst]
    exact already st f2 hin
  · unfold download_system_image sdkmanagerRun at h1
    rw [if_pos hapi, if_neg hin] at h1
    by_cases hf : f1 = true
    · rw [if_pos hf] at h1
      simp only at h1
      rw [if_pos (by decide)] at h1
      have hst : st1 = ⟨api_level :: st.installed⟩ :=
        (congrArg (fun p => p.2.1) h1).symm
      rw [hst]
      exact already ⟨api_level :: st.installed⟩ f2 (by simp)
    · rw [if_neg hf] at h1
      simp only at h1
      rw [if_neg (by decide), if_neg (by decide)] at h1
      exact absurd (congrArg (fun p => p.1) h1) (by simp)

/-- Witness for C8: a fresh install of API 34 downloads once; the second
call reports it installed and downloads nothing. -/
theorem download_image_idempotent_witness :
    download_system_image 34 ⟨[34]⟩ true = (true, ⟨[34]⟩, 0) ∧
    download_system_image 34 ⟨[34]⟩ false = (true, ⟨[34]⟩, 0) :=
  ⟨(download_image_idempotent 34 ⟨[34]⟩ true true (by decide)).1 (by decide),
   (download_image_idempotent 34 ⟨[]⟩ true false (by decide)).2 ⟨[34]⟩ 1 (by decide)⟩

/-! ## C9: status progression of a device record -/

/-- Refutation of C9 as stated: stopping a running emulator assigns
"stopped" directly after "running" — a transition outside the claimed
progression, which requires passing through "stopping". -/
theorem lifecycle_counterexample :
    ("running", "stopped") ∈
      statusSteps (lifecycle_trace "dev_34" 34 "dev-5556" true true 0 0) ∧
    claimed_step "running" "stopped" = false := by
  constructor
  · decide
  · decide

/-- C9 (amended): over the lifetime of a device record the status field
progresses only along starting → running → stopped, with a failure during
starting jumping directly to stopped; the intermediate "stopping" status of
the claimed progression is never assigned, and no other transition
occurs. -/
theorem lifecycle_transitions (name : String) (api_level : Nat)
    (serial : String) (bootOk stoppedLater : Bool) (now pid : Nat) :
    ((statusSteps (lifecycle_trace name api_level serial bootOk stoppedLater now pid)).all
        (fun p => code_step p.1 p.2) &&
      !((lifecycle_trace name api_level serial bootOk stoppedLater now pid).contains
          "stopping")) = true := by
  cases bootOk <;> cases stoppedLater <;>
    simp [lifecycle_trace, start_emulator, stop_emulator, setEmu, statusSteps,
      code_step, List.zip, List.zipWith, List.filter, List.find?]

/-! ## C5: boot wait requires both signals in one attempt -/

/-- Characterization of the polling loop: it reports success iff some
attempt made before the deadline passes the combined check. -/
theorem wait_for_boot_loop_eq_true_iff (env : Nat → BootPoll) (timeout : Nat) :
    ∀ waited i, wait_for_boot_loop env timeout waited i = true ↔
      ∃ j, waited + 3 * j < timeout ∧ boot_attempt_ok (env (i + j)) = true := by
  have H : ∀ fuel waited i, timeout - waited ≤ fuel →
      (wait_for_boot_loop env timeout waited i = true ↔
        ∃ j, waited + 3 * j < timeout ∧ boot_attempt_ok (env (i + j)) = true) := by
    intro fuel
    induction fuel with
    | zero =>
        intro waited i hle
        rw [wait_for_boot_loop]
        have hw : ¬ waited < timeout := by omega
        simp only [hw, if_false]
        constructor
        · intro h
          exact absurd h Bool.false_ne_true
        · rintro ⟨j, hj, _⟩
          omega
    | succ m ih =>
        intro waited i hle
        rw [wait_for_boot_loop]
        by_cases hw : waited < timeout
        · simp only [hw, if_true]
          by_cases hb : boot_attempt_ok (env i) = true
          · simp only [hb, if_true]
            constructor
            · intro _
              exact ⟨0, by omega, by simpa using hb⟩
            · intro _
              trivial
          · rw [Bool.not_eq_true] at hb
            simp only [hb, Bool.false_eq_true, if_false]
            rw [ih (waited + 3) (i + 1) (by omega)]
            constructor
            · rintro ⟨j, hj, hok⟩
              refine ⟨j + 1, by omega, ?_⟩
              rw [show i + (j + 1) = i + 1 + j by omega]
              exact hok
            · rintro ⟨j, hj, hok⟩
              cases j with
              | zero =>
                  rw [Nat.add_zero] at hok
                  exact absurd hok (by rw [hb]; exact Bool.false_ne_true)
              | succ k =>
                  refine ⟨k, by omega, ?_⟩
                  rw [show i + 1 + k = i + (k + 1) by omega]
                  exact hok
        · simp only [hw, if_false]
          constructor
          · intro h
            exact absurd h Bool.false_ne_true
          · rintro ⟨j, hj, _⟩
            omega
  intro waited i
  exact H (timeout - waited) waited i le_rfl

/-- C5: with the 120s deadline and 3s polling interval (40 attempts),
waitForBoot returns true iff, within a single polling attempt before the
deadline, the boot-completed property read succeeds with stripped output
"1" and the package-listing service query succeeds; if the deadline
elapses with either signal unmet in every attempt, it returns false. -/
theorem wait_for_boot_both_signals (env : Nat → BootPoll) :
    wait_for_boot env 120 = true ↔
      ∃ i, i < 40 ∧ (env i).getprop_rc = 0 ∧
        pyStrip (env i).getprop_out = "1" ∧ (env i).pm_rc = 0 := by
  unfold wait_for_boot
  rw [wait_for_boot_loop_eq_true_iff]
  constructor
  · rintro ⟨j, hj, hok⟩
    refine ⟨j, by omega, ?_⟩
    rw [Nat.zero_add] at hok
    unfold boot_attempt_ok at hok
    by_cases hc : ((env j).getprop_rc == 0 && (pyStrip (env j).getprop_out == "1")) = true
    · rw [if_pos hc] at hok
      rw [Bool.and_eq_true] at hc
      exact ⟨beq_iff_eq.mp hc.1, beq_iff_eq.mp hc.2, beq_iff_eq.mp hok⟩
    · rw [if_neg hc] at hok
      exact absurd hok Bool.false_ne_true
  · rintro ⟨i, hi, h1, h2, h3⟩
    refine ⟨i, by omega, ?_⟩
    rw [Nat.zero_add]
    unfold boot_attempt_ok
    rw [if_pos (by rw [Bool.and_eq_true]; exact ⟨beq_iff_eq.mpr h1, beq_iff_eq.mpr h2⟩)]
    exact beq_iff_eq.mpr h3

/-- Witness for C5: an environment answering both signals at the first
attempt boots successfully. -/
theorem wait_for_boot_both_signals_witness :
    wait_for_boot (fun _ => ⟨0, "1\n", 0⟩) 120 = true :=
  (wait_for_boot_both_signals (fun _ => ⟨0, "1\n", 0⟩)).mpr
    ⟨0, by decide, by decide, by decide, by decide⟩

/-! ## C6: merge semantics of the config rewrite -/

/-- Generalized invariant of the per-line pass: for any starting
accumulators, the pass maps each line through its in-place rewrite in
original order, and the final missing-key append is governed by whether
some line of the input matches each override key. -/
theorem configure_foldl_aux (updates : List (String × String)) :
    ∀ (lines : List String) (A K : List String),
      (lines.foldl (configStep updates) (A, K)).1 ++
        (updates.filter
            (fun kv => !(lines.foldl (configStep updates) (A, K)).2.contains kv.1)).map
          (fun kv => kv.1 ++ "=" ++ kv.2 ++ "\n")
      = A ++ lines.map (rewrite_line updates) ++
        (updates.filter (fun kv =>
            !K.contains kv.1 &&
              !lines.any (fun l => line_matches_key l kv.1))).map
          (fun kv => kv.1 ++ "=" ++ kv.2 ++ "\n") := by
  intro lines
  induction lines with
  | nil =>
      intro A K
      simp
  | cons l rest ih =>
      intro A K
      rw [List.foldl_cons]
      by_cases hc : hasChar '=' l = true
      · cases hfind : updates.find? (fun kv => kv.1 == lineKey l) with
        | some kv0 =>
            have hstep : configStep updates (A, K) l =
                (A ++ [lineKey l ++ "=" ++ kv0.2 ++ "\n"], K ++ [lineKey l]) := by
              simp [configStep, hc, hfind]
            rw [hstep, ih]
            have hline : rewrite_line updates l =
                lineKey l ++ "=" ++ kv0.2 ++ "\n" := by
              simp [rewrite_line, hc, hfind]
            have hcond : ∀ kv : String × String,
                (!(K ++ [lineKey l]).contains kv.1 &&
                  !rest.any (fun l2 => line_matches_key l2 kv.1))
                = (!K.contains kv.1 &&
                  !(l :: rest).any (fun l2 => line_matches_key l2 kv.1)) := by
              intro kv
              by_cases hkv : kv.1 = lineKey l
              · simp [line_matches_key, hkv, hc]
              · have h1 : (lineKey l == kv.1) = false :=
                  beq_eq_false_iff_ne.mpr (fun h => hkv h.symm)
                simp [line_matches_key, hkv, hc, h1]
            rw [List.filter_congr (fun kv _ => hcond kv)]
            simp [hline]
        | none =>
            have hstep : configStep updates (A, K) l = (A ++ [l], K) := by
              simp [configStep, hc, hfind]
            rw [hstep, ih]
            have hline : rewrite_line updates l = l := by
              simp [rewrite_line, hc, hfind]
            have hnone := List.find?_eq_none.mp hfind
            have hcond : ∀ kv : String × String, kv ∈ updates →
                (!K.contains kv.1 &&
                  !rest.any (fun l2 => line_matches_key l2 kv.1))
                = (!K.contains kv.1 &&
                  !(l :: rest).any (fun l2 => line_matches_key l2 kv.1)) := by
              intro kv hkv
              have hne : ¬ lineKey l = kv.1 := by
                intro he
                exact hnone kv hkv (by simp [he])
              have h1 : (lineKey l == kv.1) = false :=
                beq_eq_false_iff_ne.mpr hne
              simp [line_matches_key, hc, h1]
            rw [List.filter_congr hcond]
            simp [hline]
      · have hstep : configStep updates (A, K) l = (A ++ [l], K) := by
          simp [configStep, hc]
        rw [hstep, ih]
        have hline : rewrite_line updates l = l := by
          simp [rewrite_line, hc]
        have hcb : hasChar '=' l = false := by
          rw [← Bool.not_eq_true]
          exact hc
        have hcond : ∀ kv : String × String,
            (!K.contains kv.1 &&
              !rest.any (fun l2 => line_matches_key l2 kv.1))
            = (!K.contains kv.1 &&
              !(l :: rest).any (fun l2 => line_matches_key l2 kv.1)) := by
          intro kv
          simp [line_matches_key, hcb]
        rw [List.filter_congr (fun kv _ => hcond kv)]
        simp [hline]

/-- C6: rewriting a device definition's key=value configuration applies the
fixed override set with merge semantics: keys matching an override are
replaced in place with the override value, overrides whose keys appear in
no line are appended at the end in override order, and all other lines are
preserved verbatim and in their original order. -/
theorem configure_lines_merge (memory : Nat) (gpu_mode : String)
    (headless : Bool) (lines : List String) :
    configure_lines (config_updates memory gpu_mode headless) lines =
      lines.map (rewrite_line (config_updates memory gpu_mode headless)) ++
      ((config_updates memory gpu_mode headless).filter
          (fun kv => !lines.any (fun l => line_matches_key l kv.1))).map
        (fun kv => kv.1 ++ "=" ++ kv.2 ++ "\n") := by
  have h := configure_foldl_aux (config_updates memory gpu_mode headless)
    lines [] []
  simpa [configure_lines] using h

end AdbCmd
